import Mathlib

/-!
Shallow embedding of `src/interactive_dashboard.py`, a Streamlit dashboard
that loads a CSV of ranking-algorithm accuracy measurements, filters it by
an exact `(noise level, item count, pair count)` tuple chosen with sliders,
and plots accuracy against "Top-n" per algorithm.

Modelling choices:
- A dataframe is a `List Row`; a pandas boolean-mask filter is `List.filter`.
- Floats are modelled as exact rationals (`ℚ`).  Pandas' `.round(2)` becomes
  `round2`, rounding to an integer number of hundredths (tie behaviour is
  irrelevant to every property proved here).
- `st.stop()` after `st.error`/`st.warning` is modelled by the render cycle
  returning the corresponding terminal `RenderOutcome` constructor, so a
  halted cycle produces no chart by construction.
- `math.comb(n, 2)` is `Nat.choose n 2` (its Python domain is the
  non-negative integers).
-/

/-- Measurement row after the type coercions of `load_data`
(`Noise Level` float, `Num_Items`/`Num_Pairs`/`Top-n` int, `Accuracy` float). -/
structure Row where
  noiseLevel : ℚ
  numItems : ℕ
  numPairs : ℕ
  algorithm : String
  topN : ℕ
  accuracy : ℚ
deriving DecidableEq

/-- The CSV resource on disk: a header (column names) and its data rows.
Cells of the six expected columns are already numeric, as assumed by the
`astype` coercions in `load_data` (malformed cells are out of scope, spec §9). -/
structure CSV where
  columns : List String
  rows : List Row
deriving DecidableEq

/-- Rounding to 2 decimal places, as applied by
`df['Noise Level'].astype(float).round(2)` at load time: the nearest integer
number of hundredths, computed exactly on the rational `x` via integer
floor-division (`⌊100·x + 1/2⌋ / 100`). -/
def round2 (x : ℚ) : ℚ :=
  mkRat (Int.fdiv (200 * x.num + (x.den : ℤ)) (2 * (x.den : ℤ))) 100

/-- The six required columns checked by `load_data` (`expected_columns`). -/
def expectedColumns : List String :=
  ["Noise Level", "Num_Items", "Num_Pairs", "Algorithm", "Top-n", "Accuracy"]

/-- Per-row effect of the `load_data` coercions: the noise level is rounded
to 2 decimals; the integer and accuracy columns are already typed. -/
def coerceRow (r : Row) : Row :=
  { r with noiseLevel := round2 r.noiseLevel }

/-- Result of `load_data`: the file may be absent (`FileNotFoundError` branch),
a required column may be missing (first one in `expected_columns` order, since
the loop stops at the first failure), or the coerced dataframe is returned. -/
inductive LoadResult where
  | missingFile : LoadResult
  | missingColumn (col : String) : LoadResult
  | ok (df : List Row) : LoadResult
deriving DecidableEq

/-- Embedding of `load_data`: locate the file, check the six expected
columns, coerce types.  Each `st.error`/`st.stop` branch becomes a terminal
error constructor. -/
def loadData (file : Option CSV) : LoadResult :=
  match file with
  | none => .missingFile
  | some csv =>
    match expectedColumns.find? (fun c => decide (c ∉ csv.columns)) with
    | some c => .missingColumn c
    | none => .ok (csv.rows.map coerceRow)

/-- The three slider values `(noise_value, items_value, pairs_value)`. -/
structure Selection where
  noiseValue : ℚ
  itemsValue : ℕ
  pairsValue : ℕ
deriving DecidableEq

/-- `max_possible_pairs = comb(items_value, 2)`. -/
def maxPossiblePairs (n : ℕ) : ℕ := n.choose 2

/-- `pairs_min = df['Num_Pairs'].min()`. -/
def pairsColMin (df : List Row) : Option ℕ :=
  (df.map (fun r => r.numPairs)).min?

/-- `pairs_max = df['Num_Pairs'].max()`. -/
def pairsColMax (df : List Row) : Option ℕ :=
  (df.map (fun r => r.numPairs)).max?

/-- The pairs slider `min_value`, which the script sets to `pairs_min`. -/
def pairsSliderMin (df : List Row) : Option ℕ :=
  pairsColMin df

/-- The pairs slider `max_value = min(pairs_max, max_possible_pairs)`,
recomputed from the currently selected number of items. -/
def pairsSliderMax (df : List Row) (itemsValue : ℕ) : Option ℕ :=
  (pairsColMax df).map (fun m => min m (maxPossiblePairs itemsValue))

/-- Exact-match condition of the boolean mask:
`(df['Noise Level'] == noise_value) & (df['Num_Items'] == items_value) &
(df['Num_Pairs'] == pairs_value)`. -/
def tupleMatch (sel : Selection) (r : Row) : Bool :=
  decide (r.noiseLevel = sel.noiseValue) && decide (r.numItems = sel.itemsValue) &&
    decide (r.numPairs = sel.pairsValue)

/-- First filtering step: `filtered_df = df[mask]`. -/
def filteredTuple (df : List Row) (sel : Selection) : List Row :=
  df.filter (tupleMatch sel)

/-- Second filtering step: `filtered_df = filtered_df[filtered_df['Top-n'] <= items_value]`. -/
def topNFilter (itemsValue : ℕ) (df : List Row) : List Row :=
  df.filter (fun r => decide (r.topN ≤ itemsValue))

/-- The Filtered View: both filtering steps composed (the subset the chart,
the legend and the raw-data table are built from). -/
def filteredView (df : List Row) (sel : Selection) : List Row :=
  topNFilter sel.itemsValue (filteredTuple df sel)

/-- Distinct algorithm labels in first-encounter order, as
`filtered_df['Algorithm'].unique()` returns them. -/
def uniqueAlgorithms (df : List Row) : List String :=
  df.foldl (fun acc r => if r.algorithm ∈ acc then acc else acc ++ [r.algorithm]) []

/-- Ordering of rows by the `Top-n` column, the key of `sort_values('Top-n')`. -/
def byTopN : Row → Row → Prop := fun a b => a.topN ≤ b.topN

instance : DecidableRel byTopN := fun a b => inferInstanceAs (Decidable (a.topN ≤ b.topN))

instance : IsTotal Row byTopN := ⟨fun a b => Nat.le_total a.topN b.topN⟩

instance : IsTrans Row byTopN := ⟨fun _ _ _ h h2 => Nat.le_trans h h2⟩

/-- `alg_data = filtered_df[filtered_df['Algorithm'] == alg].sort_values('Top-n')`,
modelled with a comparison sort on the `Top-n` key. -/
def sortByTopN (l : List Row) : List Row := List.insertionSort byTopN l

/-- The fixed palette `plotly.colors.qualitative.Dark24`. -/
def colors : List String :=
  ["#2E91E5", "#E15F99", "#1CA71C", "#FB0D0D", "#DA16FF", "#222A2A",
   "#B68100", "#750D86", "#EB663B", "#511CFB", "#00A08B", "#FB00D1",
   "#FC0080", "#B2828D", "#6C7C32", "#778AAE", "#862A16", "#A777F1",
   "#620042", "#1616A7", "#DA60CA", "#6C4516", "#0D2A63", "#AF0038"]

/-- `colors[idx % len(colors)]`, the line colour of the trace at enumeration
index `idx`. -/
def colorForIndex (idx : ℕ) : String :=
  colors.getD (idx % colors.length) ""

/-- One plotted trace: its legend name, its `(Top-n, Accuracy)` points in
plot order, and its line colour. -/
structure Series where
  name : String
  points : List (ℕ × ℚ)
  color : String
deriving DecidableEq

/-- The trace added for algorithm `alg` at enumeration index `idx`: rows of
the view with that algorithm, sorted ascending by `Top-n`, plotted as
`x = Top-n`, `y = Accuracy`, coloured by `colors[idx % len(colors)]`. -/
def algSeries (view : List Row) (idx : ℕ) (alg : String) : Series :=
  let algData := sortByTopN (view.filter (fun r => decide (r.algorithm = alg)))
  { name := alg
    points := algData.map (fun r => (r.topN, r.accuracy))
    color := colorForIndex idx }

/-- The traces produced by `for idx, alg in enumerate(algorithms)` for a
given ordered list of algorithm labels. -/
def buildSeriesFrom (view : List Row) (algs : List String) : List Series :=
  algs.enum.map (fun p => algSeries view p.1 p.2)

/-- All traces of the figure: one per label of
`filtered_df['Algorithm'].unique()`, in that order. -/
def buildSeries (view : List Row) : List Series :=
  buildSeriesFrom view (uniqueAlgorithms view)

/-- The rendered figure: its traces plus the layout fields derived from the
selection (the title embeds the three active filter values; the axis labels
are fixed). -/
structure Chart where
  series : List Series
  titleNoise : ℚ
  titleItems : ℕ
  titlePairs : ℕ
  xLabel : String
  yLabel : String
deriving DecidableEq

/-- `go.Figure` construction plus `update_layout` for view `view` and the
current selection. -/
def buildChart (view : List Row) (sel : Selection) : Chart :=
  { series := buildSeries view
    titleNoise := sel.noiseValue
    titleItems := sel.itemsValue
    titlePairs := sel.pairsValue
    xLabel := "Top-n Candidates"
    yLabel := "Accuracy" }

/-- Outcome of one render cycle of the script.  Each `st.stop()` site
becomes a terminal constructor: the two loader errors, the sidebar
validation error (carrying the values its message interpolates: the selected
number of items and the computed bound `C(items, 2)`), and the empty-selection
warning.  Otherwise a chart is rendered. -/
inductive RenderOutcome where
  | missingFileError : RenderOutcome
  | missingColumnError (col : String) : RenderOutcome
  | invalidSelection (itemsValue bound : ℕ) : RenderOutcome
  | emptySelection : RenderOutcome
  | chart (c : Chart) : RenderOutcome
deriving DecidableEq

/-- One top-to-bottom run of the script for a given file state and slider
selection: load (halting on loader errors), validate
`pairs_value > max_possible_pairs` (halting with the sidebar error), filter
on the exact tuple, halt with the warning if that result is empty, then
apply the `Top-n <= items_value` filter and render the chart. -/
def renderCycle (file : Option CSV) (sel : Selection) : RenderOutcome :=
  match loadData file with
  | .missingFile => .missingFileError
  | .missingColumn c => .missingColumnError c
  | .ok df =>
    if sel.pairsValue > maxPossiblePairs sel.itemsValue then
      .invalidSelection sel.itemsValue (maxPossiblePairs sel.itemsValue)
    else
      let ft := filteredTuple df sel
      if ft.isEmpty then
        .emptySelection
      else
        .chart (buildChart (topNFilter sel.itemsValue ft) sel)

/-- Example view from the worked example of spec §8: three rows at
`(0.10, 500, 1000)`, algorithms "A" and "B". -/
def sampleView : List Row :=
  [⟨mkRat 1 10, 500, 1000, "A", 5, mkRat 4 5⟩,
   ⟨mkRat 1 10, 500, 1000, "A", 10, mkRat 9 10⟩,
   ⟨mkRat 1 10, 500, 1000, "B", 5, mkRat 7 10⟩]

/-- Small concrete dataframe used to instantiate slider-bound statements. -/
def sampleDf : List Row :=
  [⟨mkRat 1 10, 5, 3, "A", 2, mkRat 4 5⟩,
   ⟨mkRat 1 10, 4, 7, "B", 2, mkRat 1 2⟩]

/-- Helper: a successful `loadData` returns exactly the coerced CSV rows. -/
theorem loadData_ok_eq (csv : CSV) (df : List Row)
    (h : loadData (some csv) = .ok df) : df = csv.rows.map coerceRow := by
  cases hfind : expectedColumns.find? (fun c => decide (c ∉ csv.columns)) with
  | some c =>
    have heq : loadData (some csv) = .missingColumn c := by
      simp only [loadData]
      rw [hfind]
    rw [heq] at h
    exact LoadResult.noConfusion h
  | none =>
    have heq : loadData (some csv) = .ok (csv.rows.map coerceRow) := by
      simp only [loadData]
      rw [hfind]
    rw [heq] at h
    injection h with h
    exact h.symm

/-- C1: a row belongs to the Filtered View exactly when it belongs to the
dataframe, its `(noise_level, num_items, num_pairs)` equal the selection,
and its `top_n` is at most the selected number of items; no other rows
are included. -/
theorem filteredView_mem_iff (df : List Row) (sel : Selection) (r : Row) :
    r ∈ filteredView df sel ↔
      r ∈ df ∧ r.noiseLevel = sel.noiseValue ∧ r.numItems = sel.itemsValue ∧
        r.numPairs = sel.pairsValue ∧ r.topN ≤ sel.itemsValue := by
  simp only [filteredView, topNFilter, filteredTuple, tupleMatch, List.mem_filter,
    Bool.and_eq_true, decide_eq_true_eq]
  tauto

/-- C2 counterexample: dataset row `(0.1, 5, 3, "A", 6, 0.8)` and selection
`(0.1, 5, 3)`.  The tuple-matched subset is non-empty, but its only row is
dropped by the `Top-n <= items_value` filter, so the Filtered View is empty,
yet the script renders a chart with no traces instead of signalling the
empty-selection warning (the emptiness check runs before the `Top-n`
filter). -/
theorem emptyView_still_charts_cex :
    loadData (some ⟨expectedColumns, [⟨mkRat 1 10, 5, 3, "A", 6, mkRat 4 5⟩]⟩) =
      .ok [⟨mkRat 1 10, 5, 3, "A", 6, mkRat 4 5⟩] ∧
    filteredView [⟨mkRat 1 10, 5, 3, "A", 6, mkRat 4 5⟩] ⟨mkRat 1 10, 5, 3⟩ = [] ∧
    renderCycle (some ⟨expectedColumns, [⟨mkRat 1 10, 5, 3, "A", 6, mkRat 4 5⟩]⟩)
        ⟨mkRat 1 10, 5, 3⟩ =
      .chart ⟨[], mkRat 1 10, 5, 3, "Top-n Candidates", "Accuracy"⟩ := by
  decide

/-- C2 (amended): with the data loaded and the pair-count validation passed,
the render cycle signals the empty-selection warning precisely when the
tuple-matched subset — computed before the `Top-n` filter — is empty, and
in that case grouping and plotting are not reached. -/
theorem emptyTuple_warns_iff (file : Option CSV) (sel : Selection) (df : List Row)
    (hload : loadData file = .ok df)
    (hvalid : ¬ sel.pairsValue > maxPossiblePairs sel.itemsValue) :
    (renderCycle file sel = .emptySelection ↔ filteredTuple df sel = []) := by
  simp only [renderCycle, hload, if_neg hvalid]
  by_cases hft : (filteredTuple df sel).isEmpty = true
  · rw [if_pos hft]
    simp only [List.isEmpty_iff] at hft
    simp [hft]
  · rw [if_neg hft]
    simp only [List.isEmpty_iff] at hft
    simp [hft]

/-- Witness for the amended C2: the empty dataframe matched by any selection
yields the empty-selection warning. -/
theorem emptyTuple_warns_iff_witness :
    loadData (some ⟨expectedColumns, []⟩) = .ok [] ∧
    ¬ (3 : ℕ) > maxPossiblePairs 5 ∧
    renderCycle (some ⟨expectedColumns, []⟩) ⟨mkRat 1 10, 5, 3⟩ = .emptySelection :=
  ⟨by decide, by decide,
    (emptyTuple_warns_iff (some ⟨expectedColumns, []⟩) ⟨mkRat 1 10, 5, 3⟩ []
      (by decide) (by decide)).mpr rfl⟩

/-- C3: if the selected pair count strictly exceeds `comb(items_value, 2)`,
the render cycle halts with the sidebar validation outcome — which carries
the two values its message interpolates, the selected item count and the
computed bound — before any row filtering takes place (no warning or chart
outcome is possible). -/
theorem invalid_pairs_halts (file : Option CSV) (sel : Selection) (df : List Row)
    (hload : loadData file = .ok df)
    (hgt : sel.pairsValue > maxPossiblePairs sel.itemsValue) :
    renderCycle file sel =
      .invalidSelection sel.itemsValue (maxPossiblePairs sel.itemsValue) := by
  simp only [renderCycle, hload, if_pos hgt]

/-- Witness for C3 at the worked example of spec §8: `num_items = 500`,
`num_pairs = 124751`, bound `C(500, 2) = 124750`. -/
theorem invalid_pairs_halts_witness :
    loadData (some ⟨expectedColumns, []⟩) = .ok [] ∧
    (124751 : ℕ) > maxPossiblePairs 500 ∧
    maxPossiblePairs 500 = 124750 ∧
    renderCycle (some ⟨expectedColumns, []⟩) ⟨mkRat 1 10, 500, 124751⟩ =
      .invalidSelection 500 (maxPossiblePairs 500) := by
  have hbound : maxPossiblePairs 500 = 124750 := by
    simp [maxPossiblePairs, Nat.choose_two_right]
  refine ⟨by decide, by rw [hbound]; decide, hbound, ?_⟩
  exact invalid_pairs_halts (some ⟨expectedColumns, []⟩) ⟨mkRat 1 10, 500, 124751⟩ []
    (by decide) (by rw [hbound]; decide)

/-- C5: the loaded copy of any CSV row whose noise level rounds — with the
same load-time `round2` — to the selected noise value, and whose counts
equal the selection, is retained by the exact-match filter: the comparison
is made against the stored rounded value, so no mismatch can arise from the
unrounded raw value. -/
theorem rounded_noise_row_matches (csv : CSV) (df : List Row) (sel : Selection)
    (r : Row)
    (hload : loadData (some csv) = .ok df) (hr : r ∈ csv.rows)
    (hnoise : round2 r.noiseLevel = sel.noiseValue)
    (hitems : r.numItems = sel.itemsValue)
    (hpairs : r.numPairs = sel.pairsValue) :
    coerceRow r ∈ filteredTuple df sel := by
  have hdf := loadData_ok_eq csv df hload
  subst hdf
  simp only [filteredTuple, List.mem_filter]
  refine ⟨List.mem_map_of_mem _ hr, ?_⟩
  simp only [tupleMatch, coerceRow, Bool.and_eq_true, decide_eq_true_eq]
  exact ⟨⟨hnoise, hitems⟩, hpairs⟩

/-- Witness for C5: raw noise `0.123` rounds to `0.12` and the loaded row is
matched by the selection `(0.12, 5, 3)`. -/
theorem rounded_noise_row_matches_witness :
    loadData (some ⟨expectedColumns, [⟨mkRat 123 1000, 5, 3, "A", 2, mkRat 4 5⟩]⟩) =
      .ok [⟨mkRat 12 100, 5, 3, "A", 2, mkRat 4 5⟩] ∧
    round2 (mkRat 123 1000) = mkRat 12 100 ∧
    coerceRow ⟨mkRat 123 1000, 5, 3, "A", 2, mkRat 4 5⟩ ∈
      filteredTuple [⟨mkRat 12 100, 5, 3, "A", 2, mkRat 4 5⟩] ⟨mkRat 12 100, 5, 3⟩ :=
  ⟨by decide, by decide,
    rounded_noise_row_matches ⟨expectedColumns, [⟨mkRat 123 1000, 5, 3, "A", 2, mkRat 4 5⟩]⟩
      [⟨mkRat 12 100, 5, 3, "A", 2, mkRat 4 5⟩] ⟨mkRat 12 100, 5, 3⟩
      ⟨mkRat 123 1000, 5, 3, "A", 2, mkRat 4 5⟩
      (by decide) (by decide) (by decide) (by decide) (by decide)⟩

/-- C6: every plotted series lists its `(top_n, accuracy)` points in
non-decreasing order of `top_n`. -/
theorem series_points_sorted (view : List Row) (s : Series)
    (hs : s ∈ buildSeries view) :
    List.Sorted (fun a b : ℕ => a ≤ b) (s.points.map Prod.fst) := by
  simp only [buildSeries, buildSeriesFrom] at hs
  obtain ⟨p, hp, rfl⟩ := List.mem_map.mp hs
  have hsorted := List.sorted_insertionSort byTopN
    (view.filter (fun r => decide (r.algorithm = p.2)))
  simp only [algSeries, sortByTopN, List.map_map]
  exact List.Pairwise.map _ (fun a b hab => hab) hsorted

/-- Witness for C6 on the spec §8 example view: the series of algorithm "A". -/
theorem series_points_sorted_witness :
    algSeries sampleView 0 "A" ∈ buildSeries sampleView ∧
    List.Sorted (fun a b : ℕ => a ≤ b)
      ((algSeries sampleView 0 "A").points.map Prod.fst) :=
  ⟨by decide, series_points_sorted sampleView (algSeries sampleView 0 "A") (by decide)⟩

/-- C7: when the `Num_Pairs` column has maximum `m`, the pairs slider upper
bound for the currently selected item count equals `min m C(items, 2)` with
`C(n, 2)` in its reference form `n(n−1)/2` — so the bound is a function of
the selected item count, recomputed with it — and the slider lower bound is
the column minimum. -/
theorem pairsSlider_bounds (df : List Row) (items m : ℕ)
    (hmax : pairsColMax df = some m) :
    pairsSliderMax df items = some (min m (items * (items - 1) / 2)) ∧
    pairsSliderMin df = pairsColMin df := by
  refine ⟨?_, rfl⟩
  simp [pairsSliderMax, hmax, maxPossiblePairs, Nat.choose_two_right]

/-- Witness for C7: column maximum `7`, selected item count `4`, upper bound
`min 7 C(4,2) = 6`. -/
theorem pairsSlider_bounds_witness :
    pairsColMax sampleDf = some 7 ∧
    pairsSliderMax sampleDf 4 = some (min 7 (4 * (4 - 1) / 2)) ∧
    pairsSliderMin sampleDf = pairsColMin sampleDf :=
  ⟨by decide, (pairsSlider_bounds sampleDf 4 7 (by decide)).1,
    (pairsSlider_bounds sampleDf 4 7 (by decide)).2⟩

/-- C8: loader failures are terminal: with no file the render cycle ends in
the missing-file error, and with any required column absent it ends in the
missing-column error for an absent required column; in both cases the cycle
produces no chart, warning or validation outcome. -/
theorem loader_failures_terminal (sel : Selection) (csv : CSV) :
    renderCycle none sel = .missingFileError ∧
    ((∃ c ∈ expectedColumns, c ∉ csv.columns) →
      ∃ c ∈ expectedColumns, c ∉ csv.columns ∧
        renderCycle (some csv) sel = .missingColumnError c) := by
  constructor
  · rfl
  · intro hex
    cases hfind : expectedColumns.find? (fun c => decide (c ∉ csv.columns)) with
    | none =>
      exfalso
      obtain ⟨c, hc, hnot⟩ := hex
      have hfalse := List.find?_eq_none.mp hfind c hc
      simp only [decide_eq_true_eq] at hfalse
      exact hfalse hnot
    | some c =>
      have hp := List.find?_some hfind
      simp only [decide_eq_true_eq] at hp
      refine ⟨c, List.mem_of_find?_eq_some hfind, hp, ?_⟩
      simp only [renderCycle, loadData, hfind]

/-- Witness for C8: a header with only `Noise Level` is missing `Num_Items`. -/
theorem loader_failures_terminal_witness :
    renderCycle none ⟨mkRat 1 10, 5, 3⟩ = .missingFileError ∧
    (∃ c ∈ expectedColumns, c ∉ (CSV.mk ["Noise Level"] []).columns ∧
      renderCycle (some (CSV.mk ["Noise Level"] [])) ⟨mkRat 1 10, 5, 3⟩ =
        .missingColumnError c) :=
  ⟨(loader_failures_terminal ⟨mkRat 1 10, 5, 3⟩ (CSV.mk ["Noise Level"] [])).1,
    (loader_failures_terminal ⟨mkRat 1 10, 5, 3⟩ (CSV.mk ["Noise Level"] [])).2
      ⟨"Num_Items", by decide, by decide⟩⟩

/-- C9: colour assignment is a deterministic function of the ordered
algorithm list alone — two renders over the same ordered labels colour their
traces identically, whatever the underlying views — and the trace at index
`i` gets palette entry `i mod len(colors)`. -/
theorem colors_deterministic (v₁ v₂ : List Row) (algs : List String) (i : ℕ) :
    (buildSeriesFrom v₁ algs).map Series.color =
      (buildSeriesFrom v₂ algs).map Series.color ∧
    ((buildSeriesFrom v₁ algs)[i]?).map Series.color =
      (algs[i]?).map (fun _ => colorForIndex i) := by
  have hcol : ∀ (v : List Row) (p : ℕ × String),
      Series.color (algSeries v p.1 p.2) = colorForIndex p.1 := fun v p => rfl
  constructor
  · simp only [buildSeriesFrom, List.map_map, Function.comp]
    simp [hcol]
  · simp only [buildSeriesFrom, List.getElem?_map, List.getElem?_enum, Option.map_map]
    cases algs[i]? with
    | none => rfl
    | some a => rfl

/-- C10: any pair count within the clamped slider range — at most the slider
upper bound computed for the selected item count — satisfies
`num_pairs ≤ C(num_items, 2)`, so the inline validation branch can never
fire for a slider-produced selection. -/
theorem slider_clamp_validation_unreachable (file : Option CSV)
    (sel : Selection) (df : List Row) (m : ℕ)
    (hload : loadData file = .ok df)
    (hmax : pairsSliderMax df sel.itemsValue = some m)
    (hle : sel.pairsValue ≤ m) :
    sel.pairsValue ≤ maxPossiblePairs sel.itemsValue ∧
    ∀ i b : ℕ, renderCycle file sel ≠ .invalidSelection i b := by
  have hC : sel.pairsValue ≤ maxPossiblePairs sel.itemsValue := by
    simp only [pairsSliderMax, Option.map_eq_some'] at hmax
    obtain ⟨mm, hmm, rfl⟩ := hmax
    exact le_trans hle (min_le_right _ _)
  refine ⟨hC, fun i b => ?_⟩
  simp only [renderCycle, hload, if_neg (not_lt.mpr hC)]
  by_cases hft : (filteredTuple df sel).isEmpty = true
  · rw [if_pos hft]
    intro h
    cases h
  · rw [if_neg hft]
    intro h
    cases h

/-- Witness for C10: slider upper bound `min 3 C(5,2) = 3`; the selected
pair count `3` cannot trigger the validation error. -/
theorem slider_clamp_validation_unreachable_witness :
    loadData (some ⟨expectedColumns, [⟨mkRat 1 10, 5, 3, "A", 2, mkRat 4 5⟩]⟩) =
      .ok [⟨mkRat 1 10, 5, 3, "A", 2, mkRat 4 5⟩] ∧
    pairsSliderMax [⟨mkRat 1 10, 5, 3, "A", 2, mkRat 4 5⟩] 5 = some 3 ∧
    (3 : ℕ) ≤ 3 ∧
    renderCycle (some ⟨expectedColumns, [⟨mkRat 1 10, 5, 3, "A", 2, mkRat 4 5⟩]⟩)
      ⟨mkRat 1 10, 5, 3⟩ ≠ .invalidSelection 5 10 :=
  ⟨by decide, by decide, by decide,
    (slider_clamp_validation_unreachable
      (some ⟨expectedColumns, [⟨mkRat 1 10, 5, 3, "A", 2, mkRat 4 5⟩]⟩)
      ⟨mkRat 1 10, 5, 3⟩ [⟨mkRat 1 10, 5, 3, "A", 2, mkRat 4 5⟩] 3
      (by decide) (by decide) (by decide)).2 5 10⟩

/-- C4: the pair-count bound `maxPossiblePairs` (the code's
`comb(items_value, 2)`) equals the reference definition of C(n,2):
`n·(n−1)/2`, which is `0` whenever `n < 2`. -/
theorem maxPossiblePairs_eq_reference (n : ℕ) :
    maxPossiblePairs n = n * (n - 1) / 2 ∧ (n < 2 → maxPossiblePairs n = 0) := by
  constructor
  · exact Nat.choose_two_right n
  · intro h
    interval_cases n <;> rfl

/-- Witness for C4 at `n = 1` (the `n < 2` branch). -/
theorem maxPossiblePairs_eq_reference_witness :
    maxPossiblePairs 1 = 1 * (1 - 1) / 2 ∧ maxPossiblePairs 1 = 0 :=
  ⟨(maxPossiblePairs_eq_reference 1).1, (maxPossiblePairs_eq_reference 1).2 (by decide)⟩
